import Mathlib

/-!
Verification development for the Databento C-ABI shim
(`src/Databento.Native`).  The definitions below are shallow embeddings of
the wrapper code: the handle registry (declared in `handle_validation.hpp`,
whose implementation is not among the sources and is therefore modelled
from the specification), the live-session callback bridge
(`live_client_wrapper.cpp`), the string-copy helpers
(`common_helpers.hpp`, `batch_wrapper.cpp`), the schema parsers, the DBN
file-reader record loop (`dbn_file_reader_wrapper.cpp`) and the metadata
symbol-mapping stub (`historical_client_wrapper.cpp`).

Byte buffers handed across the FFI boundary are modelled as total
functions `Nat → Nat` from byte index to byte value; a write is a pointwise
update, so "writes only inside the capacity" is expressed as equality with
the original function at every index at or beyond the capacity.
-/

/-- Modelled from the spec: the closed enumeration of type tags stored in
the handle registry (`handle_validation.hpp` is missing from the sources;
spec section 3 lists the tags). -/
inductive HandleType where
  | LiveClient
  | HistoricalClient
  | Metadata
  | DbnFileReader
  | DbnFileWriter
  | SymbologyResolution
  | UnitPrices
  | TsSymbolMap
  | PitSymbolMap
deriving DecidableEq, Repr

/-- Modelled from the spec: the two validation failures of
`ValidateAndCast` (spec section 4.1). -/
inductive ValidationError where
  | InvalidHandle
  | TypeMismatch
deriving DecidableEq, Repr

/-- Modelled from the spec: the process-wide handle registry.  `entries`
associates each live handle value with its (type tag, owning pointer)
pair; `next` is the fresh-handle counter, so issued handle values are
never reused (spec section 3: "stable, non-reused while alive").
Handle values and pointers are modelled as `Nat`. -/
structure Registry where
  entries : List (Nat × HandleType × Nat)
  next : Nat
deriving DecidableEq, Repr

/-- The registry at process start: no handles issued.  `next` starts at 1
so that the null handle value 0 is never issued. -/
def Registry.empty : Registry := ⟨[], 1⟩

/-- Modelled from the spec: `Create(type_tag, owning_pointer)` allocates a
fresh handle value not currently live, stores the association and returns
the handle (spec section 4.1). -/
def Registry.create (r : Registry) (t : HandleType) (p : Nat) : Nat × Registry :=
  (r.next, ⟨(r.next, t, p) :: r.entries, r.next + 1⟩)

/-- Registry lookup of a handle value. -/
def Registry.lookup (r : Registry) (h : Nat) : Option (HandleType × Nat) :=
  (r.entries.find? (fun e => e.1 == h)).map (fun e => e.2)

/-- Modelled from the spec: `ValidateAndCast(handle, expected_type_tag)`
fails with `InvalidHandle` when the handle was never created or was
destroyed, with `TypeMismatch` when the stored tag differs, and otherwise
returns the stored pointer (spec section 4.1). -/
def ValidateAndCast (r : Registry) (h : Nat) (t : HandleType) : Except ValidationError Nat :=
  match r.lookup h with
  | none => .error .InvalidHandle
  | some (tag, p) => if tag = t then .ok p else .error .TypeMismatch

/-- Modelled from the spec: `Destroy(handle)` removes the association;
destroying an unknown or already-destroyed handle is a no-op (spec
section 4.1). -/
def Registry.destroy (r : Registry) (h : Nat) : Registry :=
  ⟨r.entries.filter (fun e => e.1 != h), r.next⟩

/-- A registry operation issued by some client. -/
inductive RegOp where
  | create (t : HandleType) (p : Nat)
  | destroy (h : Nat)
deriving DecidableEq, Repr

/-- Apply one registry operation. -/
def applyOp (r : Registry) : RegOp → Registry
  | .create t p => (r.create t p).2
  | .destroy h => r.destroy h

/-- Apply a sequence of registry operations. -/
def applyOps (r : Registry) (ops : List RegOp) : Registry := ops.foldl applyOp r

/-- The handle values returned by the `create` operations of a run. -/
def issuedBy : Registry → List RegOp → List Nat
  | _, [] => []
  | r, .create t p :: rest => (r.create t p).1 :: issuedBy (applyOp r (.create t p)) rest
  | r, .destroy h :: rest => issuedBy (r.destroy h) rest

/-- Registry well-formedness: every stored handle value is below the
fresh-handle counter.  It holds for the empty registry and is preserved
by every operation. -/
def keysBelowNext (r : Registry) : Prop := ∀ e ∈ r.entries, e.1 < r.next

/-- The continue/stop signal the bridge closure returns to the underlying
run loop (`databento::KeepGoing`). -/
inductive KeepGoing where
  | Continue
  | Stop
deriving DecidableEq, Repr

/-- Behaviour of one foreign record-callback invocation: it may return
normally (possibly calling `dbento_live_stop` reentrantly, which only
stores `false` into the atomic flag), throw a `std::exception`, or throw
anything else (for example an exception crossing from the managed
runtime). -/
inductive CbBehavior where
  | ok (stopRequested : Bool)
  | throwStd (msg : String)
  | throwOther
deriving DecidableEq, Repr

/-- An observable foreign-callback invocation made by the bridge. -/
inductive CbEvent where
  | record (length : Nat) (rtype : Nat) (ctx : Nat)
  | error (msg : String) (code : Int) (ctx : Nat)
deriving DecidableEq, Repr

/-- State of `LiveClientWrapper` relevant to the bridge closure
(`live_client_wrapper.cpp` lines 27-41): whether the record and error
callback pointers are registered, the opaque user context, and the
atomic `is_running` flag. -/
structure LiveWrapper where
  hasRecordCallback : Bool
  hasErrorCallback : Bool
  userData : Nat
  isRunning : Bool
deriving DecidableEq, Repr

/-- One inbound record presented to the bridge closure, together with the
behaviour of the foreign callback on this delivery. -/
structure RecInput where
  size : Nat
  rtype : Nat
  beh : CbBehavior
deriving DecidableEq, Repr

/-- Result of one `LiveClientWrapper::OnRecord` invocation: the signal
returned to the run loop, the wrapper state afterwards, and the foreign
callback invocations performed, in order. -/
structure OnRecordOut where
  keep : KeepGoing
  state : LiveWrapper
  events : List CbEvent
deriving DecidableEq, Repr

/-- Embedding of `LiveClientWrapper::OnRecord`
(`live_client_wrapper.cpp` lines 81-126).  Under the callback mutex: if
`is_running` is false, return `Stop` without touching the record
callback; otherwise invoke the record callback with (bytes, length,
type, user_data).  A `std::exception` from the callback is caught, sent
to the error callback (if registered) with code -999, the flag is
cleared and `Stop` is returned; any other exception likewise with
message "Unknown exception in record callback" and code -998.  On normal
return the final line re-reads the flag (the callback may have called
`dbento_live_stop`) and returns `Continue` or `Stop` accordingly.  The
function is total: no exception escapes to the run loop. -/
def OnRecord (w : LiveWrapper) (input : RecInput) : OnRecordOut :=
  if ¬ w.isRunning then ⟨.Stop, w, []⟩
  else if w.hasRecordCallback then
    match input.beh with
    | .ok stopRequested =>
      let w' := if stopRequested then { w with isRunning := false } else w
      ⟨if w'.isRunning then .Continue else .Stop, w',
        [.record input.size input.rtype w.userData]⟩
    | .throwStd msg =>
      ⟨.Stop, { w with isRunning := false },
        .record input.size input.rtype w.userData ::
          (if w.hasErrorCallback then [.error msg (-999) w.userData] else [])⟩
    | .throwOther =>
      ⟨.Stop, { w with isRunning := false },
        .record input.size input.rtype w.userData ::
          (if w.hasErrorCallback
            then [.error "Unknown exception in record callback" (-998) w.userData]
            else [])⟩
  else ⟨if w.isRunning then .Continue else .Stop, w, []⟩

/-- Embedding of the effect of `dbento_live_stop` on the wrapper
(`live_client_wrapper.cpp` lines 265-279): after validating the handle it
performs exactly `is_running.store(false)`. -/
def liveStopFlag (w : LiveWrapper) : LiveWrapper := { w with isRunning := false }

/-- Run the bridge closure over a sequence of inbound records, collecting
the wrapper state, all callback invocations, and the signal returned for
each delivery. -/
def OnRecordRun (w : LiveWrapper) : List RecInput → LiveWrapper × List CbEvent × List KeepGoing
  | [] => (w, [], [])
  | i :: rest =>
    let out := OnRecord w i
    let tail := OnRecordRun out.state rest
    (tail.1, out.events ++ tail.2.1, out.keep :: tail.2.2)

/-- A byte buffer across the FFI boundary: byte value at each index. -/
def writeByte (mem : Nat → Nat) (j v : Nat) : Nat → Nat :=
  fun i => if i = j then v else mem i

/-- Embedding of C `strncpy(dest, src, n)`: indices below `n` receive the
source byte at that index, or 0 once past the end of the source
(`strncpy` zero-pads); all other indices are untouched.  `src` is the
byte list of the source string up to (not including) its terminator. -/
def strncpyModel (mem : Nat → Nat) (src : List Nat) (n : Nat) : Nat → Nat :=
  fun i => if i < n then src.getD i 0 else mem i

/-- Embedding of `SafeStrCopy` from `common_helpers.hpp` lines 38-84.
`src = none` models a NULL source pointer; a NULL destination (which
returns false without writing) is not modelled since every bounds claim
presupposes a destination buffer.  Returns the buffer after the call and
the C function's boolean result.  Note the code returns false for every
capacity below 16 (`MIN_ERROR_BUFFER_SIZE`), caps writes at 65536
(`MAX_ERROR_BUFFER_SIZE`), and returns true for every capacity of at
least 16 even when the source was truncated. -/
def SafeStrCopy (mem : Nat → Nat) (destSize : Nat) (src : Option (List Nat)) :
    (Nat → Nat) × Bool :=
  if destSize = 0 then (mem, false)
  else if destSize < 16 then
    match src with
    | some s =>
      if s = [] then (writeByte mem 0 0, false)
      else (writeByte (strncpyModel mem s (destSize - 1)) (destSize - 1) 0, false)
    | none => (writeByte mem 0 0, false)
  else
    match src with
    | none => (writeByte mem 0 0, true)
    | some s =>
      let safeSize := min destSize 65536
      (writeByte (strncpyModel mem s (safeSize - 1)) (safeSize - 1) 0, true)

/-- Embedding of the file-local `SafeStrCopy` duplicate in
`batch_wrapper.cpp` lines 34-39: `if (dest && dest_size > 0 && src)` then
`strncpy(dest, src, dest_size - 1); dest[dest_size - 1] = 0;`.  With a
NULL source (`none`) it writes nothing at all. -/
def batchSafeStrCopy (mem : Nat → Nat) (destSize : Nat) (src : Option (List Nat)) :
    Nat → Nat :=
  match src with
  | none => mem
  | some s =>
    if destSize = 0 then mem
    else writeByte (strncpyModel mem s (destSize - 1)) (destSize - 1) 0

/-- Existence of a null terminator inside the declared capacity. -/
def nullTerminatedWithin (mem : Nat → Nat) (cap : Nat) : Prop :=
  ∃ i, i < cap ∧ mem i = 0

/-- The `databento::Schema` enumerants named by the two schema parsers. -/
inductive Schema where
  | Mbo
  | Mbp1
  | Mbp10
  | Trades
  | Ohlcv1S
  | Ohlcv1M
  | Ohlcv1H
  | Ohlcv1D
  | OhlcvEod
  | Definition
  | Statistics
  | Status
  | Imbalance
deriving DecidableEq, Repr

/-- Embedding of `ParseSchema` from `common_helpers.hpp` lines 93-117:
thirteen string comparisons in order, throwing
`std::runtime_error("Unknown schema: " + schema_str)` otherwise
(modelled as `Except.error` carrying the message). -/
def ParseSchema (s : String) : Except String Schema :=
  if s = "mbo" then .ok .Mbo
  else if s = "mbp-1" then .ok .Mbp1
  else if s = "mbp-10" then .ok .Mbp10
  else if s = "trades" then .ok .Trades
  else if s = "ohlcv-1s" then .ok .Ohlcv1S
  else if s = "ohlcv-1m" then .ok .Ohlcv1M
  else if s = "ohlcv-1h" then .ok .Ohlcv1H
  else if s = "ohlcv-1d" then .ok .Ohlcv1D
  else if s = "ohlcv-eod" then .ok .OhlcvEod
  else if s = "definition" then .ok .Definition
  else if s = "statistics" then .ok .Statistics
  else if s = "status" then .ok .Status
  else if s = "imbalance" then .ok .Imbalance
  else .error ("Unknown schema: " ++ s)

/-- Embedding of the file-local `ParseSchema` duplicate in
`batch_wrapper.cpp` lines 47-62: the same thirteen comparisons in the
same order as an else-if chain, throwing
`std::runtime_error("Unknown schema: " + schema_str)` otherwise. -/
def batchParseSchema (s : String) : Except String Schema :=
  if s = "mbo" then .ok .Mbo
  else if s = "mbp-1" then .ok .Mbp1
  else if s = "mbp-10" then .ok .Mbp10
  else if s = "trades" then .ok .Trades
  else if s = "ohlcv-1s" then .ok .Ohlcv1S
  else if s = "ohlcv-1m" then .ok .Ohlcv1M
  else if s = "ohlcv-1h" then .ok .Ohlcv1H
  else if s = "ohlcv-1d" then .ok .Ohlcv1D
  else if s = "ohlcv-eod" then .ok .OhlcvEod
  else if s = "definition" then .ok .Definition
  else if s = "statistics" then .ok .Statistics
  else if s = "status" then .ok .Status
  else if s = "imbalance" then .ok .Imbalance
  else .error ("Unknown schema: " ++ s)

/-- The thirteen schema names both parsers accept. -/
def schemaNames : List String :=
  ["mbo", "mbp-1", "mbp-10", "trades", "ohlcv-1s", "ohlcv-1m", "ohlcv-1h",
    "ohlcv-1d", "ohlcv-eod", "definition", "statistics", "status", "imbalance"]

/-- One DBN record as the file reader sees it: its raw bytes (header plus
payload) and its one-byte type discriminant. -/
structure DbnRecord where
  bytes : List Nat
  rtype : Nat
deriving DecidableEq, Repr

/-- Embedding of C `memcpy(dest, src, src.length)`. -/
def memcpyBytes (mem : Nat → Nat) (src : List Nat) : Nat → Nat :=
  fun i => if i < src.length then src.getD i 0 else mem i

/-- Observable outcome of one `dbento_dbn_file_next_record` call on a
valid reader handle: the returned status, the caller's record buffer
afterwards, the values stored through `record_length` / `record_type`
(`none` when the out-parameter is not written), the message placed in the
error buffer, and the remaining record stream. -/
structure NextRecordOut where
  status : Int
  buffer : Nat → Nat
  recordLength : Option Nat
  recordType : Option Nat
  errorMsg : Option String
  rest : List DbnRecord

/-- Embedding of `dbento_dbn_file_next_record`
(`dbn_file_reader_wrapper.cpp` lines 166-215) after handle validation
succeeded: the wrapper's file store is the record stream `records`.  A
null stream pointer means end of file: return 1 with `*record_length = 0`.
When the record's size exceeds the caller capacity `bufSize`, return -1
with message "Record buffer too small" and no copy; otherwise memcpy
exactly the record's bytes, report size and type, and return 0. -/
def dbento_dbn_file_next_record (records : List DbnRecord) (buffer : Nat → Nat)
    (bufSize : Nat) : NextRecordOut :=
  match records with
  | [] => ⟨1, buffer, some 0, none, none, []⟩
  | r :: rest =>
    if r.bytes.length > bufSize then
      ⟨-1, buffer, none, none, some "Record buffer too small", rest⟩
    else
      ⟨0, memcpyBytes buffer r.bytes, some r.bytes.length, some r.rtype, none, rest⟩

/-- Embedding of `dbento_metadata_get_symbol_mapping`
(`historical_client_wrapper.cpp` lines 268-291): validate the handle with
tag `Metadata` (failure, like any exception, yields -1); on success the
stub builds the symbol map and then returns -2 ("Not found/not
implemented") without ever writing the caller's symbol buffer. -/
def dbento_metadata_get_symbol_mapping (r : Registry) (h : Nat) (instrumentId : Nat)
    (mem : Nat → Nat) : Int × (Nat → Nat) :=
  match ValidateAndCast r h .Metadata with
  | .error _ => (-1, mem)
  | .ok _ =>
    let _ := instrumentId
    (-2, mem)

/-- Embedding of the handle resolution performed by the five batch
operations (`batch_wrapper.cpp`, e.g. `dbento_batch_submit_job` line 134):
`reinterpret_cast<HistoricalClientWrapper*>(handle)` followed only by a
null-pointer check — the handle value itself is used as the pointer, and
the registry is never consulted. -/
def batchRawResolve (h : Nat) : Option Nat :=
  if h = 0 then none else some h

/-- Handle resolution through the registry, as performed by every
operation in `live_client_wrapper.cpp`, `historical_client_wrapper.cpp`
and `dbn_file_reader_wrapper.cpp`: the pointer obtained from
`ValidateAndCast`, or `none` on a validation failure. -/
def validatedResolve (r : Registry) (h : Nat) (t : HandleType) : Option Nat :=
  (ValidateAndCast r h t).toOption

/-- Registry plus the multiset of live native wrapper allocations,
for stating that a destroy path frees nothing. -/
structure LiveSystem where
  registry : Registry
  allocated : List Nat
deriving DecidableEq, Repr

/-- Embedding of `dbento_live_destroy` (`live_client_wrapper.cpp` lines
281-311): validate the handle with tag `LiveClient`; on failure do
nothing (exceptions are swallowed); on success delete the wrapper and
remove the handle from the registry.  The boolean reports whether a
deallocation took place. -/
def dbento_live_destroy (s : LiveSystem) (h : Nat) : LiveSystem × Bool :=
  match ValidateAndCast s.registry h .LiveClient with
  | .error _ => (s, false)
  | .ok p => (⟨s.registry.destroy h, s.allocated.erase p⟩, true)

/-- Embedding of `dbento_dbn_file_close` (`dbn_file_reader_wrapper.cpp`
lines 217-230): validate the handle with tag `DbnFileReader`; on failure
do nothing (exceptions are swallowed); on success delete the wrapper and
remove the handle from the registry. -/
def dbento_dbn_file_close (s : LiveSystem) (h : Nat) : LiveSystem × Bool :=
  match ValidateAndCast s.registry h .DbnFileReader with
  | .error _ => (s, false)
  | .ok p => (⟨s.registry.destroy h, s.allocated.erase p⟩, true)

/-- Embedding of `dbento_symbology_resolution_get_partial`
(`historical_client_wrapper.cpp` lines 522-545) after handle validation:
`res` is the resolution's partial-symbol list as byte strings.  A zero
capacity (or null buffer, not modelled) yields -1, an out-of-range index
-2; otherwise the symbol is copied with `SafeStrCopy` and the function
returns 0 — the boolean result of `SafeStrCopy` is ignored. -/
def symbologyGetPartialEntry (res : List (List Nat)) (index : Nat) (mem : Nat → Nat)
    (bufSize : Nat) : Int × (Nat → Nat) :=
  if bufSize = 0 then (-1, mem)
  else if res.length ≤ index then (-2, mem)
  else (0, (SafeStrCopy mem bufSize (some (res.getD index []))).1)


theorem keysBelowNext_empty : keysBelowNext Registry.empty := by
  intro e he
  simp [Registry.empty] at he

theorem keysBelowNext_applyOp (r : Registry) (op : RegOp) (hwf : keysBelowNext r) :
    keysBelowNext (applyOp r op) := by
  cases op with
  | create t p =>
    intro e he
    simp only [applyOp, Registry.create, List.mem_cons] at he ⊢
    rcases he with rfl | he
    · omega
    · exact Nat.lt_succ_of_lt (hwf e he)
  | destroy h =>
    intro e he
    simp only [applyOp, Registry.destroy, List.mem_filter] at he ⊢
    exact hwf e he.1

theorem find?_filter_self (l : List (Nat × HandleType × Nat)) (h : Nat) :
    (l.filter (fun e => e.1 != h)).find? (fun e => e.1 == h) = none := by
  induction l with
  | nil => rfl
  | cons e rest ih =>
    rw [List.filter_cons]
    by_cases he : e.1 = h
    · simp only [he, bne_self_eq_false, Bool.false_eq_true, if_false]
      exact ih
    · rw [if_pos (by simpa using he)]
      rw [List.find?_cons_of_neg _ (by simpa using he)]
      exact ih

theorem find?_filter_ne (l : List (Nat × HandleType × Nat)) (h h' : Nat) (hne : h ≠ h') :
    (l.filter (fun e => e.1 != h')).find? (fun e => e.1 == h) =
      l.find? (fun e => e.1 == h) := by
  induction l with
  | nil => rfl
  | cons e rest ih =>
    rw [List.filter_cons]
    by_cases he' : e.1 = h'
    · have hneq : ¬ e.1 = h := by
        rw [he']
        exact Ne.symm hne
      simp only [he', bne_self_eq_false, Bool.false_eq_true, if_false]
      rw [List.find?_cons_of_neg _ (by simpa using hneq)]
      exact ih
    · rw [if_pos (by simpa using he')]
      by_cases heh : e.1 = h
      · rw [List.find?_cons_of_pos _ (by simpa using heh),
          List.find?_cons_of_pos _ (by simpa using heh)]
      · rw [List.find?_cons_of_neg _ (by simpa using heh),
          List.find?_cons_of_neg _ (by simpa using heh)]
        exact ih

theorem lookup_destroy_self (r : Registry) (h : Nat) :
    (r.destroy h).lookup h = none := by
  simp only [Registry.destroy, Registry.lookup, find?_filter_self, Option.map_none']

theorem lookup_destroy_other (r : Registry) (h h' : Nat) (hne : h ≠ h') :
    (r.destroy h').lookup h = r.lookup h := by
  simp only [Registry.destroy, Registry.lookup, find?_filter_ne r.entries h h' hne]

theorem lookup_create_other (r : Registry) (t : HandleType) (p h : Nat) (hne : h ≠ r.next) :
    ((r.create t p).2).lookup h = r.lookup h := by
  have : (r.next == h) = false := by simp [Ne.symm hne]
  simp [Registry.create, Registry.lookup, List.find?, this]

theorem lookup_some_key_lt_next (r : Registry) (h : Nat) (v : HandleType × Nat)
    (hwf : keysBelowNext r) (hl : r.lookup h = some v) : h < r.next := by
  simp only [Registry.lookup, Option.map_eq_some'] at hl
  obtain ⟨e, he, -⟩ := hl
  have hmem := List.mem_of_find?_eq_some he
  have hpred := List.find?_some he
  have : e.1 = h := by simpa using hpred
  rw [← this]
  exact hwf e hmem

theorem lookup_stable (ops : List RegOp) (r : Registry) (h : Nat) (v : HandleType × Nat)
    (hwf : keysBelowNext r) (hl : r.lookup h = some v)
    (hops : ∀ op ∈ ops, op ≠ RegOp.destroy h) :
    (applyOps r ops).lookup h = some v := by
  induction ops generalizing r with
  | nil => exact hl
  | cons op rest ih =>
    have hrest : ∀ o ∈ rest, o ≠ RegOp.destroy h := fun o ho => hops o (List.mem_cons_of_mem _ ho)
    have hwf' := keysBelowNext_applyOp r op hwf
    cases op with
    | create t p =>
      have hlt : h < r.next := lookup_some_key_lt_next r h v hwf hl
      have : ((r.create t p).2).lookup h = some v := by
        rw [lookup_create_other r t p h (Nat.ne_of_lt hlt)]
        exact hl
      exact ih _ hwf' this hrest
    | destroy h' =>
      have hne : h ≠ h' := by
        intro hh
        exact (hops (RegOp.destroy h') (List.mem_cons_self _ _)) (by rw [hh])
      have : (r.destroy h').lookup h = some v := by
        rw [lookup_destroy_other r h h' hne]
        exact hl
      exact ih _ hwf' this hrest

theorem lookup_none_forever (ops : List RegOp) (r : Registry) (h : Nat)
    (hlt : h < r.next) (hl : r.lookup h = none) :
    (applyOps r ops).lookup h = none := by
  induction ops generalizing r with
  | nil => exact hl
  | cons op rest ih =>
    cases op with
    | create t p =>
      refine ih _ ?_ ?_
      · simp only [applyOp, Registry.create]
        omega
      · show ((r.create t p).2).lookup h = none
        rw [lookup_create_other r t p h (Nat.ne_of_lt hlt)]
        exact hl
    | destroy h' =>
      refine ih _ ?_ ?_
      · simpa [applyOp, Registry.destroy] using hlt
      · by_cases hne : h = h'
        · subst hne
          exact lookup_destroy_self r h
        · show (r.destroy h').lookup h = none
          rw [lookup_destroy_other r h h' hne]
          exact hl

theorem lookup_none_not_issued (ops : List RegOp) (r : Registry) (h : Nat)
    (hl : r.lookup h = none) (hni : h ∉ issuedBy r ops) :
    (applyOps r ops).lookup h = none := by
  induction ops generalizing r with
  | nil => exact hl
  | cons op rest ih =>
    cases op with
    | create t p =>
      simp only [issuedBy, List.mem_cons, not_or] at hni
      refine ih _ ?_ hni.2
      show ((r.create t p).2).lookup h = none
      rw [lookup_create_other r t p h hni.1]
      exact hl
    | destroy h' =>
      simp only [issuedBy] at hni
      refine ih _ ?_ hni
      by_cases hne : h = h'
      · subst hne
        exact lookup_destroy_self r h
      · show (r.destroy h').lookup h = none
        rw [lookup_destroy_other r h h' hne]
        exact hl

theorem OnRecord_stopped (w : LiveWrapper) (i : RecInput) (hw : w.isRunning = false) :
    OnRecord w i = ⟨KeepGoing.Stop, w, []⟩ := by
  simp [OnRecord, hw]

theorem OnRecordRun_stopped (w : LiveWrapper) (hw : w.isRunning = false)
    (inputs : List RecInput) :
    OnRecordRun w inputs = (w, [], List.replicate inputs.length KeepGoing.Stop) := by
  induction inputs with
  | nil => rfl
  | cons i rest ih =>
    simp [OnRecordRun, OnRecord_stopped w i hw, ih, List.replicate_succ]

/-- C1: once `dbento_live_stop` has stored false into the running flag of
a live session's wrapper, every subsequent `OnRecord` invocation observes
the flag false, returns `Stop` to the run loop, invokes no foreign
callback at all (in particular it skips the record callback), and leaves
the flag false — so an arbitrary sequence of further deliveries produces
no record-callback invocation.  (The "at most one already-in-flight
delivery" bound of the claim concerns a delivery that passed the flag
check before the store; the sequential model covers every delivery whose
flag check follows the stop.) -/
theorem live_stop_halts_record_delivery (w : LiveWrapper) (inputs : List RecInput) :
    OnRecordRun (liveStopFlag w) inputs =
      (liveStopFlag w, [], List.replicate inputs.length KeepGoing.Stop) :=
  OnRecordRun_stopped (liveStopFlag w) rfl inputs

/-- C9: the `ParseSchema` in `common_helpers.hpp` and the file-local
duplicate in `batch_wrapper.cpp` compute the same function: they agree on
every input string, and they succeed exactly on the thirteen known schema
names (throwing the unknown-schema error otherwise). -/
theorem parse_schema_duplicates_agree :
    (∀ s, ParseSchema s = batchParseSchema s) ∧
    (∀ s, (ParseSchema s).isOk = true ↔ s ∈ schemaNames) := by
  constructor
  · intro s
    rfl
  · intro s
    constructor
    · intro hok
      by_contra hmem
      simp only [schemaNames, List.mem_cons, List.not_mem_nil, or_false, not_or] at hmem
      obtain ⟨n1, n2, n3, n4, n5, n6, n7, n8, n9, n10, n11, n12, n13⟩ := hmem
      unfold ParseSchema at hok
      rw [if_neg n1, if_neg n2, if_neg n3, if_neg n4, if_neg n5, if_neg n6, if_neg n7,
        if_neg n8, if_neg n9, if_neg n10, if_neg n11, if_neg n12, if_neg n13] at hok
      simp [Except.isOk, Except.toBool] at hok
    · intro hmem
      simp only [schemaNames, List.mem_cons, List.not_mem_nil, or_false] at hmem
      rcases hmem with rfl|rfl|rfl|rfl|rfl|rfl|rfl|rfl|rfl|rfl|rfl|rfl|rfl <;> decide

/-- C10: `dbento_metadata_get_symbol_mapping` never succeeds: it never
writes the caller's symbol buffer, returns -2 on every valid metadata
handle (for every instrument id) and -1 on every invalid handle, and in
particular never returns the documented success status 0. -/
theorem symbol_mapping_never_succeeds (r : Registry) (h iid : Nat) (mem : Nat → Nat) :
    (dbento_metadata_get_symbol_mapping r h iid mem).2 = mem ∧
    (dbento_metadata_get_symbol_mapping r h iid mem).1 =
      (if (ValidateAndCast r h HandleType.Metadata).isOk then -2 else -1) ∧
    (dbento_metadata_get_symbol_mapping r h iid mem).1 ≠ 0 := by
  unfold dbento_metadata_get_symbol_mapping
  cases hv : ValidateAndCast r h HandleType.Metadata with
  | error e => simp [hv, Except.isOk, Except.toBool]
  | ok p => simp [hv, Except.isOk, Except.toBool]

/-- C7: when the foreign record callback throws during a bridge-closure
delivery on a running session, `OnRecord` catches the exception locally:
the record callback invocation happened, then — if an error callback is
registered — the error callback is invoked with the negative sentinel
code (-999 for a `std::exception` with its message, -998 with the fixed
message for any other exception) and the user context, otherwise no error
is reported; in both cases the running flag is left false and `Stop` is
returned to the run loop.  `OnRecord` is a total function, so no
exception propagates to the run loop. -/
theorem on_record_exception_containment (w : LiveWrapper) (input : RecInput)
    (msg : String) (hrun : w.isRunning = true) (hcb : w.hasRecordCallback = true) :
    (input.beh = CbBehavior.throwStd msg →
      (OnRecord w input).keep = KeepGoing.Stop ∧
      (OnRecord w input).state.isRunning = false ∧
      (OnRecord w input).events =
        CbEvent.record input.size input.rtype w.userData ::
          (if w.hasErrorCallback then [CbEvent.error msg (-999) w.userData] else [])) ∧
    (input.beh = CbBehavior.throwOther →
      (OnRecord w input).keep = KeepGoing.Stop ∧
      (OnRecord w input).state.isRunning = false ∧
      (OnRecord w input).events =
        CbEvent.record input.size input.rtype w.userData ::
          (if w.hasErrorCallback
            then [CbEvent.error "Unknown exception in record callback" (-998) w.userData]
            else [])) := by
  constructor <;> intro hbeh <;> simp [OnRecord, hrun, hcb, hbeh]

/-- Witness for C7: a session with both callbacks registered, a
`std::exception` thrown inside the record callback. -/
theorem on_record_exception_containment_witness :
    (OnRecord ⟨true, true, 5, true⟩ ⟨10, 3, CbBehavior.throwStd "boom"⟩).keep =
        KeepGoing.Stop ∧
      (OnRecord ⟨true, true, 5, true⟩ ⟨10, 3, CbBehavior.throwStd "boom"⟩).state.isRunning =
        false ∧
      (OnRecord ⟨true, true, 5, true⟩ ⟨10, 3, CbBehavior.throwStd "boom"⟩).events =
        [CbEvent.record 10 3 5, CbEvent.error "boom" (-999) 5] := by
  have h := on_record_exception_containment ⟨true, true, 5, true⟩
    ⟨10, 3, CbBehavior.throwStd "boom"⟩ "boom" rfl rfl
  obtain ⟨hk, hs, he⟩ := h.1 rfl
  exact ⟨hk, hs, by simpa using he⟩

/-- C6: `dbento_dbn_file_next_record` on a valid reader handle.  At end of
file it returns 1 with `*record_length` set to 0 and the buffer
untouched.  On a record whose size fits the declared capacity it copies
exactly the record's bytes into the buffer (indices past the record are
untouched), reports the size in `*record_length` and the one-byte type
tag in `*record_type`, and returns 0.  On a record larger than the
capacity it copies nothing, writes neither out-parameter, and returns the
negative status -1 with the message "Record buffer too small". -/
theorem next_record_buffer_contract (records : List DbnRecord) (buffer : Nat → Nat)
    (bufSize : Nat) :
    (records = [] →
      (dbento_dbn_file_next_record records buffer bufSize).status = 1 ∧
      (dbento_dbn_file_next_record records buffer bufSize).recordLength = some 0 ∧
      (dbento_dbn_file_next_record records buffer bufSize).buffer = buffer) ∧
    (∀ r rest, records = r :: rest →
      (r.bytes.length ≤ bufSize →
        (dbento_dbn_file_next_record records buffer bufSize).status = 0 ∧
        (dbento_dbn_file_next_record records buffer bufSize).recordLength =
          some r.bytes.length ∧
        (dbento_dbn_file_next_record records buffer bufSize).recordType = some r.rtype ∧
        (∀ i, i < r.bytes.length →
          (dbento_dbn_file_next_record records buffer bufSize).buffer i =
            r.bytes.getD i 0) ∧
        (∀ i, r.bytes.length ≤ i →
          (dbento_dbn_file_next_record records buffer bufSize).buffer i = buffer i)) ∧
      (bufSize < r.bytes.length →
        (dbento_dbn_file_next_record records buffer bufSize).status = -1 ∧
        (dbento_dbn_file_next_record records buffer bufSize).buffer = buffer ∧
        (dbento_dbn_file_next_record records buffer bufSize).errorMsg =
          some "Record buffer too small" ∧
        (dbento_dbn_file_next_record records buffer bufSize).recordLength = none ∧
        (dbento_dbn_file_next_record records buffer bufSize).recordType = none)) := by
  refine ⟨fun he => ?_, fun r rest he => ⟨fun hfit => ?_, fun hbig => ?_⟩⟩
  · subst he
    exact ⟨rfl, rfl, rfl⟩
  · subst he
    have hnot : ¬ r.bytes.length > bufSize := by omega
    refine ⟨by simp [dbento_dbn_file_next_record, hnot],
      by simp [dbento_dbn_file_next_record, hnot],
      by simp [dbento_dbn_file_next_record, hnot],
      fun i hi => ?_, fun i hi => ?_⟩
    · simp [dbento_dbn_file_next_record, hnot, memcpyBytes, hi]
    · have hni : ¬ i < r.bytes.length := by omega
      simp [dbento_dbn_file_next_record, hnot, memcpyBytes, hni]
  · subst he
    have hgt : r.bytes.length > bufSize := hbig
    exact ⟨by simp [dbento_dbn_file_next_record, hgt],
      by simp [dbento_dbn_file_next_record, hgt],
      by simp [dbento_dbn_file_next_record, hgt],
      by simp [dbento_dbn_file_next_record, hgt],
      by simp [dbento_dbn_file_next_record, hgt]⟩

/-- Witness for C6: a three-byte record read into a four-byte buffer, an
oversized record rejected, and end of file. -/
theorem next_record_buffer_contract_witness :
    (dbento_dbn_file_next_record [⟨[1, 2, 3], 7⟩] (fun _ => 9) 4).status = 0 ∧
    (dbento_dbn_file_next_record [⟨[1, 2, 3], 7⟩] (fun _ => 9) 4).recordLength = some 3 ∧
    (dbento_dbn_file_next_record [⟨[1, 2, 3], 7⟩] (fun _ => 9) 4).recordType = some 7 ∧
    (dbento_dbn_file_next_record [⟨[1, 2, 3], 7⟩] (fun _ => 9) 4).buffer 1 = 2 ∧
    (dbento_dbn_file_next_record [⟨[1, 2, 3], 7⟩] (fun _ => 9) 4).buffer 5 = 9 ∧
    (dbento_dbn_file_next_record [⟨[1, 2, 3], 7⟩] (fun _ => 9) 2).status = -1 ∧
    (dbento_dbn_file_next_record [] (fun _ => 9) 4).status = 1 := by
  have hfit := ((next_record_buffer_contract [⟨[1, 2, 3], 7⟩] (fun _ => 9) 4).2
    ⟨[1, 2, 3], 7⟩ [] rfl).1 (by decide)
  have hbig := ((next_record_buffer_contract [⟨[1, 2, 3], 7⟩] (fun _ => 9) 2).2
    ⟨[1, 2, 3], 7⟩ [] rfl).2 (by decide)
  have heof := (next_record_buffer_contract [] (fun _ => 9) 4).1 rfl
  exact ⟨hfit.1, hfit.2.1, hfit.2.2.1, by
      have := hfit.2.2.2.1 1 (by decide)
      simpa using this,
    hfit.2.2.2.2 5 (by decide), hbig.1, heof.1⟩

theorem safeStrCopy_high_untouched (mem : Nat → Nat) (destSize : Nat)
    (src : Option (List Nat)) (i : Nat) (hi : destSize ≤ i) :
    (SafeStrCopy mem destSize src).1 i = mem i := by
  rcases src with - | s
  · simp only [SafeStrCopy]
    split_ifs with h0 h16
    · rfl
    · show writeByte mem 0 0 i = mem i
      unfold writeByte
      rw [if_neg (by omega)]
    · show writeByte mem 0 0 i = mem i
      unfold writeByte
      rw [if_neg (by omega)]
  · simp only [SafeStrCopy]
    split_ifs with h0 h16 hs
    · rfl
    · show writeByte mem 0 0 i = mem i
      unfold writeByte
      rw [if_neg (by omega)]
    · show writeByte (strncpyModel mem s (destSize - 1)) (destSize - 1) 0 i = mem i
      unfold writeByte strncpyModel
      rw [if_neg (by omega), if_neg (by omega)]
    · show writeByte (strncpyModel mem s (min destSize 65536 - 1)) (min destSize 65536 - 1) 0 i
        = mem i
      have hle : min destSize 65536 ≤ destSize := Nat.min_le_left _ _
      unfold writeByte strncpyModel
      rw [if_neg (by omega), if_neg (by omega)]

theorem safeStrCopy_terminated (mem : Nat → Nat) (destSize : Nat)
    (src : Option (List Nat)) (h1 : 1 ≤ destSize) :
    nullTerminatedWithin (SafeStrCopy mem destSize src).1 destSize := by
  rcases src with - | s
  · simp only [SafeStrCopy]
    split_ifs with h0 h16
    · omega
    · exact ⟨0, by omega, by show writeByte mem 0 0 0 = 0; unfold writeByte; rw [if_pos rfl]⟩
    · exact ⟨0, by omega, by show writeByte mem 0 0 0 = 0; unfold writeByte; rw [if_pos rfl]⟩
  · simp only [SafeStrCopy]
    split_ifs with h0 h16 hs
    · omega
    · exact ⟨0, by omega, by show writeByte mem 0 0 0 = 0; unfold writeByte; rw [if_pos rfl]⟩
    · refine ⟨destSize - 1, by omega, ?_⟩
      show writeByte (strncpyModel mem s (destSize - 1)) (destSize - 1) 0 (destSize - 1) = 0
      unfold writeByte
      rw [if_pos rfl]
    · refine ⟨min destSize 65536 - 1, ?_, ?_⟩
      · have hle : min destSize 65536 ≤ destSize := Nat.min_le_left _ _
        have h16' : 16 ≤ min destSize 65536 := le_min (by omega) (by omega)
        omega
      · show writeByte (strncpyModel mem s (min destSize 65536 - 1)) (min destSize 65536 - 1) 0
          (min destSize 65536 - 1) = 0
        unfold writeByte
        rw [if_pos rfl]

theorem batchStrCopy_high_untouched (mem : Nat → Nat) (destSize : Nat)
    (s : List Nat) (i : Nat) (hi : destSize ≤ i) :
    batchSafeStrCopy mem destSize (some s) i = mem i := by
  simp only [batchSafeStrCopy]
  split_ifs with h0
  · rfl
  · show writeByte (strncpyModel mem s (destSize - 1)) (destSize - 1) 0 i = mem i
    unfold writeByte strncpyModel
    rw [if_neg (by omega), if_neg (by omega)]

theorem batchStrCopy_terminated (mem : Nat → Nat) (destSize : Nat)
    (s : List Nat) (h1 : 1 ≤ destSize) :
    nullTerminatedWithin (batchSafeStrCopy mem destSize (some s)) destSize := by
  simp only [batchSafeStrCopy]
  split_ifs with h0
  · omega
  · refine ⟨destSize - 1, by omega, ?_⟩
    show writeByte (strncpyModel mem s (destSize - 1)) (destSize - 1) 0 (destSize - 1) = 0
    unfold writeByte
    rw [if_pos rfl]

/-- Counterexample for C4: the claim covers a NULL source string, but the
file-local `SafeStrCopy` duplicate in `batch_wrapper.cpp` writes nothing
at all when the source is NULL, so a buffer holding no zero byte is not
null-terminated within its capacity on return. -/
theorem batch_strcopy_null_src_unterminated_cx :
    batchSafeStrCopy (fun _ => 65) 8 none = (fun _ => 65) ∧
    ¬ nullTerminatedWithin (batchSafeStrCopy (fun _ => 65) 8 none) 8 := by
  constructor
  · rfl
  · intro hterm
    obtain ⟨i, hi, hz⟩ := hterm
    simp [batchSafeStrCopy] at hz

/-- C4 as amended: both string-copy routines write only to indices
0..dest_size-1 for every capacity ≥ 1 and every source (NULL, empty, or
longer than the capacity); the `common_helpers.hpp` `SafeStrCopy` always
leaves the buffer null-terminated within the capacity, and the
`batch_wrapper.cpp` duplicate does so for every non-NULL source but
leaves the buffer entirely untouched (hence possibly unterminated) when
the source is NULL. -/
theorem strcopy_bounded_and_terminated :
    (∀ (mem : Nat → Nat) destSize src i, destSize ≤ i →
      (SafeStrCopy mem destSize src).1 i = mem i) ∧
    (∀ (mem : Nat → Nat) destSize src, 1 ≤ destSize →
      nullTerminatedWithin (SafeStrCopy mem destSize src).1 destSize) ∧
    (∀ (mem : Nat → Nat) destSize s i, destSize ≤ i →
      batchSafeStrCopy mem destSize (some s) i = mem i) ∧
    (∀ (mem : Nat → Nat) destSize s, 1 ≤ destSize →
      nullTerminatedWithin (batchSafeStrCopy mem destSize (some s)) destSize) ∧
    (∀ (mem : Nat → Nat) destSize, batchSafeStrCopy mem destSize none = mem) :=
  ⟨safeStrCopy_high_untouched, safeStrCopy_terminated,
    batchStrCopy_high_untouched, batchStrCopy_terminated,
    fun _ _ => rfl⟩

/-- Witness for C4 (amended): a 16-byte buffer receiving a source longer
than the capacity stays untouched at index 20 and holds a terminator
inside the capacity; the batch duplicate likewise for a two-byte source;
the batch duplicate with a NULL source is an identity. -/
theorem strcopy_bounded_and_terminated_witness :
    (SafeStrCopy (fun _ => 9) 16 (some (List.replicate 20 65))).1 20 = 9 ∧
    nullTerminatedWithin (SafeStrCopy (fun _ => 9) 16 (some (List.replicate 20 65))).1 16 ∧
    batchSafeStrCopy (fun _ => 9) 4 (some [72, 73]) 7 = 9 ∧
    nullTerminatedWithin (batchSafeStrCopy (fun _ => 9) 4 (some [72, 73])) 4 ∧
    batchSafeStrCopy (fun _ => 9) 4 none = (fun _ => 9) :=
  ⟨strcopy_bounded_and_terminated.1 (fun _ => 9) 16 (some (List.replicate 20 65)) 20
      (by decide),
    strcopy_bounded_and_terminated.2.1 (fun _ => 9) 16 (some (List.replicate 20 65))
      (by decide),
    strcopy_bounded_and_terminated.2.2.1 (fun _ => 9) 4 [72, 73] 7 (by decide),
    strcopy_bounded_and_terminated.2.2.2.1 (fun _ => 9) 4 [72, 73] (by decide),
    strcopy_bounded_and_terminated.2.2.2.2 (fun _ => 9) 4⟩

/-- Counterexample for C5: a 20-byte partial symbol copied through
`dbento_symbology_resolution_get_partial` into a 16-byte buffer does not
fit, yet the operation returns the success status 0 and `SafeStrCopy`
itself returns true — no insufficient-capacity error is reported. -/
theorem truncation_reported_as_success_cx :
    16 ≤ (List.replicate 20 65).length ∧
    (symbologyGetPartialEntry [List.replicate 20 65] 0 (fun _ => 1) 16).1 = 0 ∧
    (SafeStrCopy (fun _ => 1) 16 (some (List.replicate 20 65))).2 = true := by
  refine ⟨by decide, rfl, rfl⟩

/-- C5 as amended: the boolean result of `SafeStrCopy` depends only on
the capacity — it is true exactly when the capacity is at least 16
(`MIN_ERROR_BUFFER_SIZE`), regardless of whether the source fits — and
the string-output operation `dbento_symbology_resolution_get_partial`
returns success (0) for every in-range index and positive capacity,
silently truncating over-long sources; no distinct insufficient-capacity
error is ever reported. -/
theorem strcopy_status_ignores_fit :
    (∀ (mem : Nat → Nat) destSize src,
      (SafeStrCopy mem destSize src).2 = decide (16 ≤ destSize)) ∧
    (∀ res index (mem : Nat → Nat) bufSize, 1 ≤ bufSize → index < res.length →
      (symbologyGetPartialEntry res index mem bufSize).1 = 0) := by
  constructor
  · intro mem destSize src
    rcases src with - | s
    · simp only [SafeStrCopy]
      split_ifs with h0 h16
      · rw [decide_eq_false (by omega)]
      · rw [decide_eq_false (by omega)]
      · rw [decide_eq_true (by omega)]
    · simp only [SafeStrCopy]
      split_ifs with h0 h16 hs
      · rw [decide_eq_false (by omega)]
      · rw [decide_eq_false (by omega)]
      · rw [decide_eq_false (by omega)]
      · rw [decide_eq_true (by omega)]
  · intro res index mem bufSize hb hidx
    unfold symbologyGetPartialEntry
    rw [if_neg (by omega), if_neg (by omega)]

/-- Witness for C5 (amended): an 8-byte capacity yields false from
`SafeStrCopy` even though the one-byte source fits, a 16-byte capacity
yields true even though the twenty-byte source does not, and a valid
`get_partial` call reports 0. -/
theorem strcopy_status_ignores_fit_witness :
    (SafeStrCopy (fun _ => 1) 8 (some [65])).2 = false ∧
    (SafeStrCopy (fun _ => 1) 16 (some (List.replicate 20 66))).2 = true ∧
    (symbologyGetPartialEntry [[65]] 0 (fun _ => 1) 4).1 = 0 := by
  refine ⟨?_, ?_, strcopy_status_ignores_fit.2 [[65]] 0 (fun _ => 1) 4 (by decide) (by decide)⟩
  · rw [strcopy_status_ignores_fit.1 (fun _ => 1) 8 (some [65])]
    decide
  · rw [strcopy_status_ignores_fit.1 (fun _ => 1) 16 (some (List.replicate 20 66))]
    decide

theorem lookup_none_of_ge_next (r : Registry) (h : Nat) (hwf : keysBelowNext r)
    (hge : r.next ≤ h) : r.lookup h = none := by
  cases hl : r.lookup h with
  | none => rfl
  | some v =>
    have := lookup_some_key_lt_next r h v hwf hl
    omega

theorem lookup_create_self (r : Registry) (t : HandleType) (p : Nat) :
    ((r.create t p).2).lookup (r.create t p).1 = some (t, p) := by
  simp [Registry.create, Registry.lookup, List.find?]

/-- Counterexample for C3: the handle value 1 was never issued by the
registry (here: the empty registry), so `ValidateAndCast` rejects it with
`InvalidHandle` — yet the batch operations' handle resolution
(`reinterpret_cast` plus null check, `batch_wrapper.cpp` line 134) turns
it into a usable pointer, i.e. the batch operations do dereference a
handle obtained by a raw unchecked reinterpretation. -/
theorem batch_raw_cast_bypasses_registry_cx :
    batchRawResolve 1 = some 1 ∧
    validatedResolve Registry.empty 1 HandleType.HistoricalClient = none ∧
    ValidateAndCast Registry.empty 1 HandleType.HistoricalClient =
      Except.error ValidationError.InvalidHandle :=
  ⟨rfl, rfl, rfl⟩

/-- C3 as amended: the live, historical, metadata, symbology, unit-prices
and DBN file-reader operations obtain their wrapper pointer through the
registry's `ValidateAndCast` (their embeddings above are built on it),
but the five batch operations reinterpret the handle value directly with
only a null check: for every well-formed registry, every nonzero handle
value never issued (at or above the fresh counter) is rejected by
`ValidateAndCast` with `InvalidHandle` for every type tag while the batch
raw cast still yields a dereferenceable pointer. -/
theorem batch_raw_cast_divergence (r : Registry) (h : Nat)
    (hwf : keysBelowNext r) (hge : r.next ≤ h) (hnz : h ≠ 0) :
    batchRawResolve h = some h ∧
    ∀ t, ValidateAndCast r h t = Except.error ValidationError.InvalidHandle := by
  constructor
  · unfold batchRawResolve
    rw [if_neg hnz]
  · intro t
    unfold ValidateAndCast
    rw [lookup_none_of_ge_next r h hwf hge]

/-- Witness for C3 (amended): handle value 5 against the empty registry. -/
theorem batch_raw_cast_divergence_witness :
    batchRawResolve 5 = some 5 ∧
    ValidateAndCast Registry.empty 5 HandleType.LiveClient =
      Except.error ValidationError.InvalidHandle := by
  have h := batch_raw_cast_divergence Registry.empty 5 keysBelowNext_empty (by decide) (by decide)
  exact ⟨h.1, h.2 HandleType.LiveClient⟩

/-- C2: lifecycle of registry handles.  (i) A handle issued by `Create`
with tag `t` and pointer `p` validates to `p` under tag `t` at every
point until a `Destroy` of that handle occurs, whatever other creates and
destroys happen in between.  (ii) After `Destroy` of a handle below the
fresh counter (every issued handle is), `ValidateAndCast` on it reports
`InvalidHandle` forever, whatever operations follow.  (iii) A handle
value never issued by any `Create` of a run from the initial registry
fails with `InvalidHandle` for every expected type tag. -/
theorem handle_registry_lifecycle (r : Registry) (t : HandleType) (p : Nat)
    (hwf : keysBelowNext r) :
    (∀ ops, (∀ op ∈ ops, op ≠ RegOp.destroy (r.create t p).1) →
      ValidateAndCast (applyOps (r.create t p).2 ops) (r.create t p).1 t =
        Except.ok p) ∧
    (∀ h ops t', h < r.next →
      ValidateAndCast (applyOps (r.destroy h) ops) h t' =
        Except.error ValidationError.InvalidHandle) ∧
    (∀ ops h t', h ∉ issuedBy Registry.empty ops →
      ValidateAndCast (applyOps Registry.empty ops) h t' =
        Except.error ValidationError.InvalidHandle) := by
  refine ⟨fun ops hops => ?_, fun h ops t' hlt => ?_, fun ops h t' hni => ?_⟩
  · have hwf' : keysBelowNext (r.create t p).2 := keysBelowNext_applyOp r (.create t p) hwf
    have hl := lookup_create_self r t p
    have := lookup_stable ops (r.create t p).2 (r.create t p).1 (t, p) hwf' hl hops
    unfold ValidateAndCast
    rw [this]
    simp
  · have hl : (applyOps (r.destroy h) ops).lookup h = none :=
      lookup_none_forever ops (r.destroy h) h hlt (lookup_destroy_self r h)
    unfold ValidateAndCast
    rw [hl]
  · have hl : (applyOps Registry.empty ops).lookup h = none :=
      lookup_none_not_issued ops Registry.empty h rfl hni
    unfold ValidateAndCast
    rw [hl]

/-- Witness for C2: starting from a registry holding one live-client
handle, a freshly created metadata handle validates, the live-client
handle is invalid forever after its destroy, and the never-issued value 5
is invalid after a run that issued only handle 1. -/
theorem handle_registry_lifecycle_witness :
    ValidateAndCast
        (applyOps ((Registry.empty.create HandleType.LiveClient 7).2.create
          HandleType.Metadata 9).2 [RegOp.create HandleType.UnitPrices 3])
        ((Registry.empty.create HandleType.LiveClient 7).2.create HandleType.Metadata 9).1
        HandleType.Metadata = Except.ok 9 ∧
    ValidateAndCast
        (applyOps ((Registry.empty.create HandleType.LiveClient 7).2.destroy 1)
          [RegOp.create HandleType.UnitPrices 3])
        1 HandleType.LiveClient = Except.error ValidationError.InvalidHandle ∧
    ValidateAndCast (applyOps Registry.empty [RegOp.create HandleType.LiveClient 7])
        5 HandleType.Metadata = Except.error ValidationError.InvalidHandle := by
  have h := handle_registry_lifecycle (Registry.empty.create HandleType.LiveClient 7).2
    HandleType.Metadata 9
    (keysBelowNext_applyOp Registry.empty (RegOp.create HandleType.LiveClient 7)
      keysBelowNext_empty)
  refine ⟨h.1 [RegOp.create HandleType.UnitPrices 3] (by decide),
    h.2.1 1 [RegOp.create HandleType.UnitPrices 3] HandleType.LiveClient (by decide),
    h.2.2 [RegOp.create HandleType.LiveClient 7] 5 HandleType.Metadata (by decide)⟩

/-- C8: the destroy/close operations are idempotent and never fault.
After a first `dbento_live_destroy` (likewise `dbento_dbn_file_close`) on
any handle value, a second call on the same handle deallocates nothing
and leaves the whole state (registry and allocations) unchanged; and on a
handle value not present in the registry (never created or already
destroyed) the operations are no-ops.  Both embeddings are total
functions — the C functions swallow every exception — so no fault
reaches the caller. -/
theorem destroy_idempotent_no_fault (s : LiveSystem) (h : Nat) :
    dbento_live_destroy (dbento_live_destroy s h).1 h =
      ((dbento_live_destroy s h).1, false) ∧
    dbento_dbn_file_close (dbento_dbn_file_close s h).1 h =
      ((dbento_dbn_file_close s h).1, false) ∧
    (s.registry.lookup h = none →
      dbento_live_destroy s h = (s, false) ∧ dbento_dbn_file_close s h = (s, false)) := by
  have hself : ∀ (r : Registry) t, ValidateAndCast (r.destroy h) h t =
      Except.error ValidationError.InvalidHandle := by
    intro r t
    unfold ValidateAndCast
    rw [lookup_destroy_self r h]
  refine ⟨?_, ?_, fun hl => ?_⟩
  · cases hv : ValidateAndCast s.registry h HandleType.LiveClient with
    | error e => simp [dbento_live_destroy, hv]
    | ok p => simp [dbento_live_destroy, hv, hself]
  · cases hv : ValidateAndCast s.registry h HandleType.DbnFileReader with
    | error e => simp [dbento_dbn_file_close, hv]
    | ok p => simp [dbento_dbn_file_close, hv, hself]
  · have hv : ∀ t, ValidateAndCast s.registry h t =
        Except.error ValidationError.InvalidHandle := by
      intro t
      unfold ValidateAndCast
      rw [hl]
    exact ⟨by simp [dbento_live_destroy, hv], by simp [dbento_dbn_file_close, hv]⟩

/-- Witness for C8: double destroy of an issued live handle, and destroy
of the never-issued handle 9. -/
theorem destroy_idempotent_no_fault_witness :
    dbento_live_destroy
        (dbento_live_destroy ⟨(Registry.empty.create HandleType.LiveClient 7).2, [7]⟩ 1).1 1 =
      ((dbento_live_destroy ⟨(Registry.empty.create HandleType.LiveClient 7).2, [7]⟩ 1).1,
        false) ∧
    dbento_live_destroy ⟨Registry.empty, [4]⟩ 9 = (⟨Registry.empty, [4]⟩, false) ∧
    dbento_dbn_file_close ⟨Registry.empty, [4]⟩ 9 = (⟨Registry.empty, [4]⟩, false) := by
  have h1 := destroy_idempotent_no_fault
    ⟨(Registry.empty.create HandleType.LiveClient 7).2, [7]⟩ 1
  have h2 := (destroy_idempotent_no_fault ⟨Registry.empty, [4]⟩ 9).2.2 (by decide)
  exact ⟨h1.1, h2.1, h2.2⟩

/-- Witness for C9: both parsers agree on "trades" and accept it. -/
theorem parse_schema_duplicates_agree_witness :
    ParseSchema "trades" = batchParseSchema "trades" ∧
    (ParseSchema "trades").isOk = true ∧ "trades" ∈ schemaNames :=
  ⟨parse_schema_duplicates_agree.1 "trades",
    (parse_schema_duplicates_agree.2 "trades").mpr (by decide), by decide⟩

/-- Witness for C10: a never-issued metadata handle yields -1, a valid
one yields -2, and neither is the success status 0. -/
theorem symbol_mapping_never_succeeds_witness :
    (dbento_metadata_get_symbol_mapping Registry.empty 3 10 (fun _ => 0)).1 = -1 ∧
    (dbento_metadata_get_symbol_mapping
      (Registry.empty.create HandleType.Metadata 7).2 1 10 (fun _ => 0)).1 = -2 := by
  constructor
  · rw [(symbol_mapping_never_succeeds Registry.empty 3 10 (fun _ => 0)).2.1]
    decide
  · rw [(symbol_mapping_never_succeeds
      (Registry.empty.create HandleType.Metadata 7).2 1 10 (fun _ => 0)).2.1]
    decide
